import Mathlib

/-!
Shallow embedding of the titan-pos sync engine (crates/titan-sync and
crates/titan-db) and proofs about it.

Each definition mirrors one Rust item; the source file and symbol are named
in its doc comment.  Timestamps are modelled as opaque `Nat` values threaded
through as a `now` parameter, SQL tables as Lean lists of row structures,
UUID generation as a counter carried in the database state, and JSON entity
payloads as an inductive of the shapes the appliers deserialize.
-/

namespace TitanPos

/-- titan-core/src/types.rs `Product`.  `DateTime` columns are `Nat`. -/
structure Product where
  id : String
  tenant_id : String
  sku : String
  barcode : Option String
  name : String
  description : Option String
  price_cents : Int
  cost_cents : Option Int
  tax_rate_bps : Nat
  track_inventory : Bool
  allow_negative_stock : Bool
  current_stock : Option Int
  is_active : Bool
  created_at : Nat
  updated_at : Nat
  sync_version : Int
deriving DecidableEq, Repr

/-- Row of the `inventory_deltas` audit table as written by
titan-sync/src/inbound.rs `record_inventory_delta` (`synced` stored as 1). -/
structure InventoryDeltaRow where
  id : String
  product_id : String
  delta : Int
  delta_type : String
  reference_id : String
  reference_type : String
  origin_device_id : String
  occurred_at : Nat
  sequence_num : Int
  synced : Bool
  created_at : Nat
deriving DecidableEq, Repr

/-- Local SQLite database state visible to the inbound applier: the
`products` table, the `inventory_deltas` audit table, and a counter
standing in for `uuid::Uuid::new_v4` generation. -/
structure Db where
  products : List Product
  inventory_deltas : List InventoryDeltaRow
  uuidGen : Nat
deriving DecidableEq, Repr

/-- `EntityUpdate.data` is `serde_json::Value` in the source; the appliers
deserialize it either as a full `titan_core::Product` or as the private
`InventoryDeltaData {product_id, delta, reason}`.  This inductive models the
JSON values by the shape the deserializers accept. -/
inductive UpdateData where
  | productData (p : Product)
  | inventoryDeltaData (product_id : String) (delta : Int) (reason : Option String)
  | malformed
deriving DecidableEq, Repr

/-- titan-sync/src/protocol.rs `EntityUpdate`.  Note: the struct carries NO
election term field. -/
structure EntityUpdate where
  entity_type : String
  entity_id : String
  operation : String
  data : UpdateData
  version : Int
  updated_at : Nat
deriving DecidableEq, Repr

/-- titan-sync/src/protocol.rs `UpdateAck`. -/
structure UpdateAck where
  entity_id : String
  success : Bool
  applied_version : Int
  error : Option String
deriving DecidableEq, Repr

/-- `serde_json::from_value::<titan_core::Product>` on `EntityUpdate.data`. -/
def parseProduct : UpdateData → Option Product
  | .productData p => some p
  | _ => none

/-- `serde_json::from_value::<InventoryDeltaData>` on `EntityUpdate.data`. -/
def parseInventoryDeltaData : UpdateData → Option (String × Int × Option String)
  | .inventoryDeltaData pid d r => some (pid, d, r)
  | _ => none

/-- `db.products().get_by_id(entity_id)`: first row with the given id. -/
def findProduct : List Product → String → Option Product
  | [], _ => none
  | p :: rest, id => if p.id = id then some p else findProduct rest id

/-- titan-sync/src/inbound.rs `update_product_from_sync`: SQL UPDATE of the
listed columns WHERE id = product.id (does not touch `current_stock`,
`tenant_id`, `created_at`). -/
def updateProductFromSync (db : Db) (product : Product) : Db :=
  { db with products := db.products.map fun r =>
      if r.id = product.id then
        { r with
          sku := product.sku
          barcode := product.barcode
          name := product.name
          description := product.description
          price_cents := product.price_cents
          cost_cents := product.cost_cents
          tax_rate_bps := product.tax_rate_bps
          track_inventory := product.track_inventory
          allow_negative_stock := product.allow_negative_stock
          is_active := product.is_active
          updated_at := product.updated_at
          sync_version := product.sync_version }
      else r }

/-- titan-sync/src/inbound.rs `insert_product_from_sync`: SQL INSERT of the
full row; fails on a primary-key collision. -/
def insertProductFromSync (db : Db) (product : Product) : Except String Db :=
  if db.products.any (fun r => r.id = product.id) then
    .error "UNIQUE constraint failed: products.id"
  else
    .ok { db with products := db.products ++ [product] }

/-- titan-sync/src/inbound.rs `soft_delete_product`: sets `is_active = false`,
`updated_at = now`, `sync_version = version` WHERE id = product_id. -/
def softDeleteProduct (db : Db) (now : Nat) (product_id : String) (version : Int) : Db :=
  { db with products := db.products.map fun r =>
      if r.id = product_id then
        { r with is_active := false, updated_at := now, sync_version := version }
      else r }

/-- titan-sync/src/inbound.rs `record_inventory_delta`: generates a fresh
UUID for the audit row id, inserts with `reference_id = sync_id`, and
swallows any insert error (duplicate primary key included). -/
def recordInventoryDelta (db : Db) (now : Nat) (product_id : String) (delta : Int)
    (sync_id : String) : Db :=
  let id := "uuid-" ++ toString db.uuidGen
  let db1 : Db := { db with uuidGen := db.uuidGen + 1 }
  let row : InventoryDeltaRow :=
    { id := id, product_id := product_id, delta := delta, delta_type := "sync"
      reference_id := sync_id, reference_type := "sync", origin_device_id := "sync"
      occurred_at := now, sequence_num := 1, synced := true, created_at := now }
  if db1.inventory_deltas.any (fun r => r.id = id) then
    db1
  else
    { db1 with inventory_deltas := db1.inventory_deltas ++ [row] }

/-- Operation dispatch inside titan-sync/src/inbound.rs `apply_product_update`
(the `match update.operation.as_str()` after the version check). -/
def applyProductOperation (db : Db) (now : Nat) (u : EntityUpdate)
    (current : Option Product) : Db × Except String Int :=
  if u.operation = "upsert" then
    match parseProduct u.data with
    | none => (db, .error "invalid type: product data expected")
    | some p0 =>
      let product := { p0 with sync_version := u.version }
      if current.isSome then
        (updateProductFromSync db product, .ok u.version)
      else
        match insertProductFromSync db product with
        | .error e => (db, .error e)
        | .ok db1 => (db1, .ok u.version)
  else if u.operation = "patch" then
    (db, .ok ((current.map Product.sync_version).getD 0))
  else if u.operation = "delete" then
    (softDeleteProduct db now u.entity_id u.version, .ok u.version)
  else
    (db, .ok ((current.map Product.sync_version).getD 0))

/-- titan-sync/src/inbound.rs `InboundHandler::apply_product_update`:
load current by id, skip (returning the local version) when
`current.sync_version >= update.version`, else dispatch on the operation. -/
def applyProductUpdate (db : Db) (now : Nat) (u : EntityUpdate) : Db × Except String Int :=
  match findProduct db.products u.entity_id with
  | some product =>
    if product.sync_version ≥ u.version then
      (db, .ok product.sync_version)
    else
      applyProductOperation db now u (some product)
  | none => applyProductOperation db now u none

/-- titan-sync/src/inbound.rs `InboundHandler::apply_inventory_delta`:
`UPDATE products SET current_stock = COALESCE(current_stock, 0) + delta`
unconditionally, then append to the audit table (errors swallowed),
then return `Ok(update.version)`. -/
def applyInventoryDelta (db : Db) (now : Nat) (u : EntityUpdate) : Db × Except String Int :=
  match parseInventoryDeltaData u.data with
  | none => (db, .error "invalid type: inventory delta data expected")
  | some (product_id, delta, _reason) =>
    let db1 : Db :=
      { db with products := db.products.map fun r =>
          if r.id = product_id then
            { r with current_stock := some (r.current_stock.getD 0 + delta), updated_at := now }
          else r }
    (recordInventoryDelta db1 now product_id delta u.entity_id, .ok u.version)

/-- titan-sync/src/inbound.rs `InboundHandler::process_update`: dispatch by
`entity_type` (tax_rate/category/user bodies only log and return
`Ok(update.version)`; unknown types return `Ok(0)`), then build the
`UpdateAck` from the result. -/
def processUpdate (db : Db) (now : Nat) (u : EntityUpdate) : Db × UpdateAck :=
  let step : Db × Except String Int :=
    if u.entity_type = "product" then applyProductUpdate db now u
    else if u.entity_type = "inventory_delta" then applyInventoryDelta db now u
    else if u.entity_type = "tax_rate" then (db, .ok u.version)
    else if u.entity_type = "category" then (db, .ok u.version)
    else if u.entity_type = "user" then (db, .ok u.version)
    else (db, .ok 0)
  match step with
  | (db1, .ok v) =>
    (db1, { entity_id := u.entity_id, success := true, applied_version := v, error := none })
  | (db1, .error e) =>
    (db1, { entity_id := u.entity_id, success := false, applied_version := 0, error := some e })

/-- State of a SECONDARY as far as term fencing is concerned: the last
election term it has observed (election.rs `ElectionState.term`) and its
local database. -/
structure SecondaryState where
  lastSeenTerm : Nat
  db : Db
deriving DecidableEq, Repr

/-- titan-sync/src/agent.rs `message_router` arm for `EntityUpdate` combined
with the inbound handler: the router forwards every `EntityUpdate` to
`InboundHandler::process_update` unconditionally; neither consults the
election term, and the message itself carries no term. -/
def secondaryHandleEntityUpdate (s : SecondaryState) (now : Nat) (u : EntityUpdate) :
    SecondaryState × UpdateAck :=
  let r := processUpdate s.db now u
  ({ s with db := r.1 }, r.2)

/-- Current stock of a product in the database, for stating stock effects. -/
def stockOf (db : Db) (pid : String) : Option Int :=
  (findProduct db.products pid).bind Product.current_stock

/-- The row transformation performed by `update_product_from_sync` on a
matching row, named for use in proofs. -/
def upsertRow (q : Product) (v : Int) (r : Product) : Product :=
  { r with
    sku := q.sku, barcode := q.barcode, name := q.name
    description := q.description, price_cents := q.price_cents
    cost_cents := q.cost_cents, tax_rate_bps := q.tax_rate_bps
    track_inventory := q.track_inventory
    allow_negative_stock := q.allow_negative_stock
    is_active := q.is_active, updated_at := q.updated_at
    sync_version := v }

/-- Concrete database for witnesses and counterexamples: one product `P1`
at sync_version 3 with stock 10. -/
def fencingProduct : Product :=
  { id := "P1", tenant_id := "default", sku := "SKU-1", barcode := none
    name := "Widget", description := none, price_cents := 500, cost_cents := none
    tax_rate_bps := 0, track_inventory := true, allow_negative_stock := true
    current_stock := some 10, is_active := true, created_at := 0, updated_at := 0
    sync_version := 3 }

def fencingDb : Db := { products := [fencingProduct], inventory_deltas := [], uuidGen := 0 }

/-- The payload a stale (term-8) PRIMARY would push: an upsert of `P1` at
version 8. -/
def staleUpdateProduct : Product :=
  { fencingProduct with name := "Widget v8", sync_version := 8, updated_at := 50 }

def staleUpdate : EntityUpdate :=
  { entity_type := "product", entity_id := "P1", operation := "upsert"
    data := .productData staleUpdateProduct, version := 8, updated_at := 50 }

/-- An update whose entity_type matches none of the dispatch arms. -/
def saleUpdate : EntityUpdate :=
  { entity_type := "sale", entity_id := "S1", operation := "upsert"
    data := .malformed, version := 4, updated_at := 70 }

/-- The same inventory-delta EntityUpdate (unique sync id `D1`) delivered
twice: `delta = 5` against product `P1`. -/
def dupDeltaUpdate : EntityUpdate :=
  { entity_type := "inventory_delta", entity_id := "D1", operation := "upsert"
    data := .inventoryDeltaData "P1" 5 none, version := 1, updated_at := 60 }

/-- titan-sync/src/protocol.rs `InventoryDelta` (timestamp as `Nat`). -/
structure InventoryDelta where
  product_id : String
  sku : String
  delta_quantity : Int
  timestamp : Nat
deriving DecidableEq, Repr

/-- titan-sync/src/protocol.rs `InventoryUpdate`. -/
structure InventoryUpdate where
  product_id : String
  sku : String
  delta_quantity : Int
  source_device_id : String
  timestamp : Nat
deriving DecidableEq, Repr

/-- titan-sync/src/aggregator.rs `PendingDelta` (Instants as `Nat`). -/
structure PendingDelta where
  product_id : String
  sku : String
  delta_quantity : Int
  source_device : String
  first_seen : Nat
  last_seen : Nat
deriving DecidableEq, Repr

/-- `delta_quantity` is an `i32` on the wire, so the aggregator's
`existing.delta_quantity += delta.delta_quantity` wraps modulo `2^32` into
the signed 32-bit range. -/
def wrap32 (n : Int) : Int := (n + 2 ^ 31) % 2 ^ 32 - 2 ^ 31

def i32add (a b : Int) : Int := wrap32 (a + b)

/-- The fresh map entry inserted by `add_pending_delta` for a product not
yet pending. -/
def newPendingEntry (source_device : String) (d : InventoryDelta) (now : Nat) : PendingDelta :=
  { product_id := d.product_id, sku := d.sku, delta_quantity := d.delta_quantity
    source_device := source_device, first_seen := now, last_seen := now }

/-- The merge performed by `add_pending_delta` on an existing entry:
additive delta, refreshed `last_seen`. -/
def coalesceEntry (e : PendingDelta) (d : InventoryDelta) (now : Nat) : PendingDelta :=
  { e with delta_quantity := i32add e.delta_quantity d.delta_quantity, last_seen := now }

/-- titan-sync/src/aggregator.rs `InventoryAggregator::add_pending_delta`:
the pending `HashMap<product_id, PendingDelta>` is modelled as an
association list; the entry for the delta's product is merged additively,
or inserted if absent. -/
def addPendingDelta (source_device : String) (d : InventoryDelta) (now : Nat) :
    List PendingDelta → List PendingDelta
  | [] => [newPendingEntry source_device d now]
  | e :: rest =>
    if e.product_id = d.product_id then
      coalesceEntry e d now :: rest
    else
      e :: addPendingDelta source_device d now rest

/-- The `InventoryUpdate` broadcast for one coalesced entry
(aggregator.rs `flush_pending` + `broadcast_delta`). -/
def pendingToUpdate (now : Nat) (e : PendingDelta) : InventoryUpdate :=
  { product_id := e.product_id, sku := e.sku, delta_quantity := e.delta_quantity
    source_device_id := e.source_device, timestamp := now }

/-- titan-sync/src/aggregator.rs `InventoryAggregator::flush_pending`:
drains the pending map, skips entries whose summed delta is zero, and
broadcasts each remaining entry as one `InventoryUpdate`. -/
def flushPending (pending : List PendingDelta) (now : Nat) : List InventoryUpdate :=
  (pending.filter fun e => e.delta_quantity != 0).map (pendingToUpdate now)

/-- One `InventoryDelta` received by the aggregator within a window, with
its source device and arrival time. -/
structure DeltaEvent where
  source_device : String
  delta : InventoryDelta
  now : Nat
deriving DecidableEq, Repr

def stepPD (pending : List PendingDelta) (ev : DeltaEvent) : List PendingDelta :=
  addPendingDelta ev.source_device ev.delta ev.now pending

/-- The pending map built by feeding each delta received within one
coalesce window through `add_pending_delta`, starting from the freshly
drained (empty) map. -/
def runWindow (events : List DeltaEvent) : List PendingDelta :=
  events.foldl stepPD []

/-- Mathematical (unwrapped) sum of the deltas received for one product in
a window. -/
def windowSum (events : List DeltaEvent) (pid : String) : Int :=
  ((events.filter fun ev => ev.delta.product_id == pid).map
    fun ev => ev.delta.delta_quantity).sum

/-- Pending entries for one product. -/
def matchesFor (pending : List PendingDelta) (pid : String) : List PendingDelta :=
  pending.filter fun e => e.product_id == pid

/-- Broadcast updates for one product. -/
def updatesFor (out : List InventoryUpdate) (pid : String) : List InventoryUpdate :=
  out.filter fun u => u.product_id == pid

/-- An accumulated (possibly wrapped) i32 value agrees with the
mathematical sum `S`: either exactly, or it is in i32 range and congruent
to `S` modulo `2^32`. -/
def deltaOK (v S : Int) : Prop :=
  v = S ∨ (-(2 ^ 31) ≤ v ∧ v < 2 ^ 31 ∧ (v - S) % 2 ^ 32 = 0)

/-- Scenario: POS-A sells 2 and POS-B sells 1 of product P inside one
window. -/
def demoWindow : List DeltaEvent :=
  [ { source_device := "POS-A", delta := { product_id := "P", sku := "SKU-P", delta_quantity := -2, timestamp := 1 }, now := 1 },
    { source_device := "POS-B", delta := { product_id := "P", sku := "SKU-P", delta_quantity := -1, timestamp := 2 }, now := 2 } ]

/-- titan-core/src/types.rs `SyncOutboxEntry` = one row of the
`sync_outbox` table (timestamps as `Nat`). -/
structure OutboxRow where
  id : String
  tenant_id : String
  entity_type : String
  entity_id : String
  payload : String
  attempts : Int
  last_error : Option String
  created_at : Nat
  attempted_at : Option Nat
  synced_at : Option Nat
deriving DecidableEq, Repr

/-- titan-sync protocol `FailedEntry`. -/
structure FailedEntry where
  id : String
  error : String
  retryable : Bool
deriving DecidableEq, Repr

/-- titan-sync protocol `BatchAck`. -/
structure BatchAck where
  acked_ids : List String
  failed_ids : List FailedEntry
  new_cursor : Int
deriving DecidableEq, Repr

/-- Effect of titan-db repository/sync.rs `mark_synced` on a matching row:
`synced_at = now, attempted_at = now` (attempts untouched). -/
def syncRow (now : Nat) (r : OutboxRow) : OutboxRow :=
  { r with synced_at := some now, attempted_at := some now }

/-- Effect of titan-db repository/sync.rs `mark_failed` on a matching row:
`attempts = attempts + 1, last_error = error, attempted_at = now`
(synced_at untouched). -/
def failRow (now : Nat) (error : String) (r : OutboxRow) : OutboxRow :=
  { r with attempts := r.attempts + 1, last_error := some error, attempted_at := some now }

def ackRowStep (now : Nat) (id : String) (r : OutboxRow) : OutboxRow :=
  if r.id = id then syncRow now r else r

/-- titan-db repository/sync.rs `SyncOutboxRepository::mark_synced`:
SQL UPDATE of every row WHERE id = ?. -/
def markSynced (now : Nat) (id : String) (table : List OutboxRow) : List OutboxRow :=
  table.map (ackRowStep now id)

def failRowStepErr (now : Nat) (id error : String) (r : OutboxRow) : OutboxRow :=
  if r.id = id then failRow now error r else r

/-- titan-db repository/sync.rs `SyncOutboxRepository::mark_failed`:
SQL UPDATE of every row WHERE id = ?. -/
def markFailed (now : Nat) (id error : String) (table : List OutboxRow) : List OutboxRow :=
  table.map (failRowStepErr now id error)

/-- The error message built by outbox.rs `handle_batch_ack` for a failed
entry: `format!("Sync failed: {} (retryable: {})", ...)`. -/
def mkSyncErrorMsg (f : FailedEntry) : String :=
  "Sync failed: " ++ f.error ++ " (retryable: " ++ (if f.retryable then "true" else "false") ++ ")"

/-- titan-sync/src/outbox.rs `OutboxProcessor::handle_batch_ack`: mark each
acked ID synced, then mark each failed ID failed with the formatted error
message — unconditionally, whether or not the failure is retryable (a
non-retryable failure is only logged extra). -/
def handleBatchAck (now : Nat) (table : List OutboxRow) (ack : BatchAck) : List OutboxRow :=
  let t1 := ack.acked_ids.foldl (fun t id => markSynced now id t) table
  ack.failed_ids.foldl (fun t f => markFailed now f.id (mkSyncErrorMsg f) t) t1

/-- Row-level view of `handle_batch_ack`: what happens to one row. -/
def rowAfterAck (now : Nat) (ack : BatchAck) (r : OutboxRow) : OutboxRow :=
  ack.failed_ids.foldl (fun row f => failRowStepErr now f.id (mkSyncErrorMsg f) row)
    (ack.acked_ids.foldl (fun row id => ackRowStep now id row) r)

/-- titan-db repository/sync.rs `get_pending` filter: rows WHERE
`synced_at IS NULL` (the sync queue). -/
def pendingRows (table : List OutboxRow) : List OutboxRow :=
  table.filter fun r => r.synced_at.isNone

/-- The row built by titan-db repository/sync.rs `queue_for_sync`:
`attempts = 0`, no error, not yet attempted or synced. -/
def mkQueuedRow (id tenant_id entity_type entity_id payload : String) (now : Nat) : OutboxRow :=
  { id := id, tenant_id := tenant_id, entity_type := entity_type, entity_id := entity_id
    payload := payload, attempts := 0, last_error := none, created_at := now
    attempted_at := none, synced_at := none }

/-- The repository operations that touch `sync_outbox`
(titan-db repository/sync.rs): insert via `queue_for_sync`, `mark_synced`,
`mark_failed`, and `cleanup_old_entries`. -/
inductive OutboxOp where
  | queueOp (id tenant_id entity_type entity_id payload : String) (now : Nat)
  | markSyncedOp (now : Nat) (id : String)
  | markFailedOp (now : Nat) (id : String) (error : String)
  | cleanupOp (cutoff : Nat)
deriving DecidableEq, Repr

/-- Effect of one repository operation on one existing row (`none` =
deleted by cleanup). -/
def stepRow : OutboxOp → OutboxRow → Option OutboxRow
  | .queueOp _ _ _ _ _ _, r => some r
  | .markSyncedOp now id, r => some (ackRowStep now id r)
  | .markFailedOp now id error, r => some (failRowStepErr now id error r)
  | .cleanupOp cutoff, r =>
    match r.synced_at with
    | some t => if t < cutoff then none else some r
    | none => some r

/-- Rows created by one repository operation. -/
def newRows : OutboxOp → List OutboxRow
  | .queueOp id tn et eid pl now => [mkQueuedRow id tn et eid pl now]
  | _ => []

/-- One repository operation applied to the whole table. -/
def applyOp (table : List OutboxRow) (op : OutboxOp) : List OutboxRow :=
  table.filterMap (stepRow op) ++ newRows op

/-- Scenario: outbox rows A, B, C; BatchAck acks A and C and fails B with a
non-retryable FK violation. -/
def rowA : OutboxRow := mkQueuedRow "A" "default" "SALE" "sale-A" "pa" 1

def rowB : OutboxRow := mkQueuedRow "B" "default" "SALE" "sale-B" "pb" 2

def rowC : OutboxRow := mkQueuedRow "C" "default" "SALE" "sale-C" "pc" 3

def demoFailedB : FailedEntry := { id := "B", error := "FK_VIOLATION", retryable := false }

def demoAck : BatchAck :=
  { acked_ids := ["A", "C"], failed_ids := [demoFailedB], new_cursor := 3 }

/-- titan-sync/src/discovery.rs `DiscoveredHub` (IP as opaque String,
Instant as Nat). -/
structure DiscoveredHub where
  device_id : String
  device_name : String
  store_id : String
  ip_address : String
  ws_port : Nat
  election_term : Nat
  priority : Nat
  discovered_at : Nat
deriving DecidableEq, Repr

/-- Rust `Ord::cmp` on strings (lexicographic). -/
def strCmp (a b : String) : Ordering :=
  if a.data < b.data then .lt else if a = b then .eq else .gt

/-- Rust `Ord::cmp` on `u8` priorities. -/
def natCmp (a b : Nat) : Ordering :=
  if a < b then .lt else if a = b then .eq else .gt

/-- The comparator used by discovery.rs `DiscoveryHandle::best_hub` and by
the `max_by` in election.rs `do_discovery_and_election`: priorities
compared first; on a tie the device IDs are compared REVERSED
(`b.device_id.cmp(&a.device_id)`), so the lexicographically smaller ID
compares greater. -/
def hubCmp (a b : DiscoveredHub) : Ordering :=
  match natCmp a.priority b.priority with
  | .eq => strCmp b.device_id a.device_id
  | o => o

/-- Rust `Iterator::max_by`: fold keeping the current maximum; when not
strictly greater, the later element wins. -/
def rustMaxBy (cmp : DiscoveredHub → DiscoveredHub → Ordering) :
    List DiscoveredHub → Option DiscoveredHub
  | [] => none
  | x :: xs => some (xs.foldl (fun acc y => if cmp acc y = .gt then acc else y) x)

/-- discovery.rs `DiscoveryHandle::best_hub` (same comparator as
election.rs `do_discovery_and_election`). -/
def bestHub (hubs : List DiscoveredHub) : Option DiscoveredHub :=
  rustMaxBy hubCmp hubs

/-- election.rs `ElectionService::should_challenge`. -/
def shouldChallenge (ourPriority : Nat) (ourId : String) (hub : DiscoveredHub) : Bool :=
  if ourPriority > hub.priority then true
  else if ourPriority = hub.priority ∧ ourId.data < hub.device_id.data then true
  else false

/-- `a` wins against (or equals) `x` under the hub comparator: strictly
higher priority, or equal priority and an ID no larger. -/
def hubGe (a x : DiscoveredHub) : Prop :=
  x.priority < a.priority ∨
    (x.priority = a.priority ∧ a.device_id.data ≤ x.device_id.data)

/-- Two equal-priority hubs with device IDs `a` and `b`. -/
def demoHubA : DiscoveredHub :=
  { device_id := "a", device_name := "A", store_id := "S1", ip_address := "10.0.0.1"
    ws_port := 8765, election_term := 4, priority := 5, discovered_at := 0 }

def demoHubB : DiscoveredHub :=
  { demoHubA with device_id := "b", device_name := "B", ip_address := "10.0.0.2" }

/-- election.rs `NodeRole`. -/
inductive NodeRole where
  | primary
  | secondary
  | candidate
  | offline
deriving DecidableEq, Repr

/-- config.rs `SyncMode`. -/
inductive SyncMode where
  | auto
  | primary
  | secondary
  | offline
deriving DecidableEq, Repr

/-- election.rs `ElectionState` (Instant as Nat). -/
structure ElectionState where
  role : NodeRole
  term : Nat
  primary_id : Option String
  primary_url : Option String
  last_heartbeat : Option Nat
deriving DecidableEq, Repr

/-- election.rs `ElectionState::default`: SECONDARY at term 0. -/
def electionStateDefault : ElectionState :=
  { role := .secondary, term := 0, primary_id := none, primary_url := none
    last_heartbeat := none }

/-- election.rs `ElectionService::become_primary`: sets role and primary
bookkeeping; the term is NOT changed. -/
def becomePrimary (deviceId : String) (now : Nat) (s : ElectionState) : ElectionState :=
  { s with
    role := .primary
    primary_id := some deviceId
    primary_url := none
    last_heartbeat := some now }

/-- The candidate step of election.rs `run_election`: role := CANDIDATE and
term := term + 1 (only elections bump the term). -/
def electionCandidateStep (s : ElectionState) : ElectionState :=
  { s with role := .candidate, term := s.term + 1 }

/-- The start of election.rs `ElectionService::run`: the forced-PRIMARY arm
calls `become_primary` immediately; afterwards the initial role computed
for the mode is stored into the state. -/
def electionInit (mode : SyncMode) (deviceId : String) (now : Nat)
    (s : ElectionState) : ElectionState :=
  let s1 := match mode with
    | .primary => becomePrimary deviceId now s
    | _ => s
  let initialRole : NodeRole := match mode with
    | .primary => .primary
    | .secondary => .secondary
    | .offline => .offline
    | .auto => .secondary
  { s1 with role := initialRole }

/-- titan-sync/src/protocol.rs `PROTOCOL_VERSION`. -/
def PROTOCOL_VERSION : Nat := 2

/-- titan-sync/src/protocol.rs `HelloPayload`. -/
structure HelloPayload where
  device_id : String
  device_name : String
  store_id : String
  protocol_version : Nat
  priority : Nat
deriving DecidableEq, Repr

/-- titan-sync/src/protocol.rs `WelcomePayload` (server_time as Nat). -/
structure WelcomePayload where
  hub_device_id : String
  store_id : String
  election_term : Nat
  server_time : Nat
deriving DecidableEq, Repr

/-- hub.rs `ConnectedClient` (address as String, Instant as Nat). -/
structure ConnectedClient where
  device_id : String
  store_id : String
  addr : String
  connected_at : Nat
deriving DecidableEq, Repr

/-- What the Hub sends back during the handshake: nothing (close), an
Error frame, or a Welcome frame. -/
inductive HandshakeReply where
  | noReply
  | errorReply (code message : String)
  | welcomeReply (w : WelcomePayload)
deriving DecidableEq, Repr

/-- hub.rs client-map registration: `HashMap::insert` keyed by device_id
(a second connection from the same device replaces the first). -/
def registerClient (clients : List ConnectedClient) (c : ConnectedClient) :
    List ConnectedClient :=
  if clients.any (fun x => x.device_id = c.device_id) then
    clients.map fun x => if x.device_id = c.device_id then c else x
  else
    clients ++ [c]

/-- titan-sync/src/hub.rs `handle_socket` handshake: wait for a Hello
(`none` models timeout or a malformed frame — close silently), check ONLY
`store_id`, then register the client and reply Welcome.
`Hello.protocol_version` is never examined. -/
def handleHandshake (hubStoreId hubDeviceId : String) (term : Nat) (serverTime : Nat)
    (clients : List ConnectedClient) (hello : Option HelloPayload) (addr : String)
    (now : Nat) : List ConnectedClient × HandshakeReply :=
  match hello with
  | none => (clients, .noReply)
  | some h =>
    if h.store_id ≠ hubStoreId then
      (clients, .errorReply "STORE_MISMATCH" "Store ID does not match")
    else
      (registerClient clients
        { device_id := h.device_id, store_id := h.store_id, addr := addr, connected_at := now },
       .welcomeReply { hub_device_id := hubDeviceId, store_id := hubStoreId
                       election_term := term, server_time := serverTime })

/-- A Hello whose protocol version (999) is incompatible with
`PROTOCOL_VERSION = 2` but whose store matches. -/
def badVersionHello : HelloPayload :=
  { device_id := "dev-9", device_name := "POS 9", store_id := "S1"
    protocol_version := 999, priority := 50 }

lemma findProduct_map_keyed (l : List Product) (id : String) (f : Product → Product)
    (hf : ∀ r, (f r).id = r.id) :
    findProduct (l.map fun r => if r.id = id then f r else r) id =
      (findProduct l id).map f := by
  induction l with
  | nil => rfl
  | cons p rest ih =>
    by_cases hp : p.id = id
    · simp [findProduct, hp, hf]
    · simp [findProduct, hp, ih]

lemma processUpdate_product_skip (db : Db) (now : Nat) (u : EntityUpdate) (p : Product)
    (ht : u.entity_type = "product")
    (hp : findProduct db.products u.entity_id = some p)
    (hge : p.sync_version ≥ u.version) :
    processUpdate db now u =
      (db, { entity_id := u.entity_id, success := true,
             applied_version := p.sync_version, error := none }) := by
  unfold processUpdate applyProductUpdate
  rw [ht, hp]
  simp [hge]

lemma processUpdate_product_upsert (db : Db) (now : Nat) (u : EntityUpdate) (p q : Product)
    (ht : u.entity_type = "product") (hop : u.operation = "upsert")
    (hp : findProduct db.products u.entity_id = some p)
    (hlt : p.sync_version < u.version)
    (hq : parseProduct u.data = some q) :
    processUpdate db now u =
      (updateProductFromSync db { q with sync_version := u.version },
       { entity_id := u.entity_id, success := true,
         applied_version := u.version, error := none }) := by
  unfold processUpdate applyProductUpdate applyProductOperation
  rw [ht, hp, hop, hq]
  simp [not_le.mpr hlt]

lemma processUpdate_product_upsert_parse_fail (db : Db) (now : Nat) (u : EntityUpdate)
    (p : Product) (ht : u.entity_type = "product") (hop : u.operation = "upsert")
    (hp : findProduct db.products u.entity_id = some p)
    (hlt : p.sync_version < u.version)
    (hq : parseProduct u.data = none) :
    (processUpdate db now u).2.success = false := by
  unfold processUpdate applyProductUpdate applyProductOperation
  rw [ht, hp, hop, hq]
  simp [not_le.mpr hlt]

/-- C3: Version-guarded upsert (inbound.rs `apply_product_update`): with a
local product present, an upsert is applied only when the incoming version
is strictly greater than the local `sync_version`; otherwise the database is
unchanged and the ack carries the local version.  Whenever the ack reports
success, the locally stored version afterwards is at least the incoming
version. -/
theorem upsert_version_guard (db : Db) (now : Nat) (u : EntityUpdate) (p : Product)
    (ht : u.entity_type = "product") (hop : u.operation = "upsert")
    (hp : findProduct db.products u.entity_id = some p)
    (hid : ∀ q, parseProduct u.data = some q → q.id = u.entity_id) :
    (p.sync_version ≥ u.version →
      processUpdate db now u =
        (db, { entity_id := u.entity_id, success := true,
               applied_version := p.sync_version, error := none })) ∧
    (p.sync_version < u.version → ∀ q, parseProduct u.data = some q →
      ∃ r, findProduct (processUpdate db now u).1.products u.entity_id = some r ∧
        r.sync_version = u.version ∧
        (processUpdate db now u).2 =
          { entity_id := u.entity_id, success := true,
            applied_version := u.version, error := none }) ∧
    (∀ db' ack, processUpdate db now u = (db', ack) → ack.success = true →
      ∃ r, findProduct db'.products u.entity_id = some r ∧ u.version ≤ r.sync_version) := by
  have happlied : p.sync_version < u.version → ∀ q, parseProduct u.data = some q →
      ∃ r, findProduct (processUpdate db now u).1.products u.entity_id = some r ∧
        r.sync_version = u.version ∧
        (processUpdate db now u).2 =
          { entity_id := u.entity_id, success := true,
            applied_version := u.version, error := none } := by
    intro hlt q hq
    rw [processUpdate_product_upsert db now u p q ht hop hp hlt hq]
    have hprods : (updateProductFromSync db { q with sync_version := u.version }).products
        = db.products.map fun r => if r.id = u.entity_id then upsertRow q u.version r else r := by
      unfold updateProductFromSync upsertRow
      simp only [hid q hq]
    show ∃ r, findProduct (updateProductFromSync db _).products u.entity_id = some r ∧ _
    rw [hprods, findProduct_map_keyed db.products u.entity_id (upsertRow q u.version)
      (fun r => rfl), hp]
    exact ⟨upsertRow q u.version p, rfl, rfl, rfl⟩
  refine ⟨fun hge => processUpdate_product_skip db now u p ht hp hge, happlied, ?_⟩
  intro db' ack heq hsucc
  by_cases hge : p.sync_version ≥ u.version
  · have h1 := processUpdate_product_skip db now u p ht hp hge
    rw [h1] at heq
    obtain ⟨rfl, rfl⟩ := Prod.mk.injEq .. ▸ heq
    exact ⟨p, hp, hge⟩
  · have hlt : p.sync_version < u.version := lt_of_not_ge hge
    cases hq : parseProduct u.data with
    | none =>
      have := processUpdate_product_upsert_parse_fail db now u p ht hop hp hlt hq
      rw [heq] at this
      rw [hsucc] at this
      cases this
    | some q =>
      obtain ⟨r, hr, hv, -⟩ := happlied hlt q hq
      rw [heq] at hr
      exact ⟨r, hr, le_of_eq hv.symm⟩

/-- Witness for `upsert_version_guard` at the concrete database. -/
theorem upsert_version_guard_witness :
    (stockOf (processUpdate fencingDb 50 staleUpdate).1 "P1" = some 10 →
      (processUpdate fencingDb 50 staleUpdate).2.applied_version = 8) ∧
    ∃ r, findProduct (processUpdate fencingDb 50 staleUpdate).1.products "P1" = some r ∧
      r.sync_version = 8 := by
  have h := upsert_version_guard fencingDb 50 staleUpdate fencingProduct rfl rfl
    (by decide) (by intro q hq; cases hq; rfl)
  obtain ⟨r, hr, hv, hack⟩ := h.2.1 (by decide) staleUpdateProduct rfl
  exact ⟨fun _ => by rw [hack]; rfl, r, hr, hv⟩


/-- C10: inbound.rs `process_update` fall-through arm: an `EntityUpdate`
whose entity_type is none of product, inventory_delta, tax_rate, category or
user performs no database mutation and is acked with `success = true`,
`applied_version = 0` and no error. -/
theorem unknown_entity_type_ack (db : Db) (now : Nat) (u : EntityUpdate)
    (h1 : u.entity_type ≠ "product") (h2 : u.entity_type ≠ "inventory_delta")
    (h3 : u.entity_type ≠ "tax_rate") (h4 : u.entity_type ≠ "category")
    (h5 : u.entity_type ≠ "user") :
    processUpdate db now u =
      (db, { entity_id := u.entity_id, success := true, applied_version := 0, error := none }) := by
  unfold processUpdate
  simp [h1, h2, h3, h4, h5]

/-- Witness for `unknown_entity_type_ack` at entity_type `sale`. -/
theorem unknown_entity_type_ack_witness :
    processUpdate fencingDb 70 saleUpdate =
      (fencingDb, { entity_id := "S1", success := true, applied_version := 0, error := none }) :=
  unknown_entity_type_ack fencingDb 70 saleUpdate
    (by decide) (by decide) (by decide) (by decide) (by decide)

/-- C1 (code bug): no term fencing on the `EntityUpdate` path.  A SECONDARY
whose last observed election term is arbitrary (in particular 9) processes a
stale primary's `EntityUpdate` (produced under term 8; the message cannot
even carry a term) identically for every last-seen term: the update is
applied, the local database changes, and the ack reports success — the spec
requires the message to be dropped with the database unchanged. -/
theorem entity_update_not_fenced :
    ∀ lastSeenTerm : Nat,
      (secondaryHandleEntityUpdate
          { lastSeenTerm := lastSeenTerm, db := fencingDb } 50 staleUpdate).1.db ≠ fencingDb ∧
      (secondaryHandleEntityUpdate
          { lastSeenTerm := lastSeenTerm, db := fencingDb } 50 staleUpdate).2.success = true ∧
      (secondaryHandleEntityUpdate
          { lastSeenTerm := lastSeenTerm, db := fencingDb } 50 staleUpdate).1.db =
        (processUpdate fencingDb 50 staleUpdate).1 := by
  intro t
  refine ⟨?_, rfl, rfl⟩
  show (processUpdate fencingDb 50 staleUpdate).1 ≠ fencingDb
  decide

/-- C2 (code bug): inbound.rs `apply_inventory_delta` is not idempotent
under a duplicated delta ID.  Applying the same `inventory_delta`
EntityUpdate (sync id `D1`, delta 5) twice moves `P1`'s stock from 10 to 15
and then to 20: the stock update runs unconditionally before the audit
insert, the audit row's primary key is a freshly generated UUID (the delta's
ID only lands in `reference_id`), and audit-insert errors are swallowed. -/
theorem duplicate_delta_applied_twice :
    stockOf (processUpdate fencingDb 60 dupDeltaUpdate).1 "P1" = some 15 ∧
    stockOf (processUpdate (processUpdate fencingDb 60 dupDeltaUpdate).1 61 dupDeltaUpdate).1 "P1"
      = some 20 ∧
    (processUpdate (processUpdate fencingDb 60 dupDeltaUpdate).1 61 dupDeltaUpdate).2.success
      = true ∧
    ((processUpdate fencingDb 60 dupDeltaUpdate).1.inventory_deltas.map
        InventoryDeltaRow.reference_id) = ["D1"] ∧
    ((processUpdate (processUpdate fencingDb 60 dupDeltaUpdate).1 61
        dupDeltaUpdate).1.inventory_deltas.map
        InventoryDeltaRow.reference_id) = ["D1", "D1"] := by
  decide


lemma pow31_eq : (2 : Int) ^ 31 = 2147483648 := by norm_num

lemma pow32_eq : (2 : Int) ^ 32 = 4294967296 := by norm_num

lemma deltaOK_self (v : Int) : deltaOK v v := Or.inl rfl

lemma deltaOK_i32add (a S d : Int) (h : deltaOK a S) : deltaOK (i32add a d) (S + d) := by
  rcases h with h | ⟨h1, h2, h3⟩
  · subst h
    right
    unfold i32add wrap32
    rw [pow31_eq, pow32_eq]
    omega
  · right
    unfold i32add wrap32
    rw [pow31_eq, pow32_eq]
    rw [pow31_eq] at h1 h2
    rw [pow32_eq] at h3
    omega

lemma deltaOK_eq (v S : Int) (h : deltaOK v S) (hlo : -(2 ^ 31) ≤ S) (hhi : S < 2 ^ 31) :
    v = S := by
  rcases h with h | ⟨h1, h2, h3⟩
  · exact h
  · rw [pow31_eq] at h1 h2 hlo hhi
    rw [pow32_eq] at h3
    omega

lemma windowSum_nil (pid : String) : windowSum [] pid = 0 := rfl

lemma windowSum_cons (ev : DeltaEvent) (events : List DeltaEvent) (pid : String) :
    windowSum (ev :: events) pid =
      (if ev.delta.product_id = pid then ev.delta.delta_quantity else 0)
        + windowSum events pid := by
  by_cases h : ev.delta.product_id = pid <;> simp [windowSum, h]

lemma matchesFor_add (s : String) (d : InventoryDelta) (now : Nat) (pid : String)
    (pending : List PendingDelta) :
    matchesFor (addPendingDelta s d now pending) pid =
      if d.product_id = pid then
        match matchesFor pending pid with
        | [] => [newPendingEntry s d now]
        | e :: rest => coalesceEntry e d now :: rest
      else matchesFor pending pid := by
  unfold matchesFor
  induction pending with
  | nil =>
    by_cases h : d.product_id = pid <;>
      simp [addPendingDelta, newPendingEntry, h]
  | cons e rest ih =>
    by_cases h1 : e.product_id = d.product_id
    · by_cases h2 : d.product_id = pid
      · have h3 : e.product_id = pid := h1.trans h2
        simp [addPendingDelta, coalesceEntry, h1, h2, h3]
      · have h3 : ¬ e.product_id = pid := fun h => h2 (h1.symm.trans h)
        have h2s : ¬ pid = d.product_id := fun h => h2 h.symm
        simp [addPendingDelta, coalesceEntry, h1, h2, h3, h2s]
    · by_cases h3 : e.product_id = pid
      · have h2 : ¬ d.product_id = pid := fun h => h1 (h3.trans h.symm)
        have h2s : ¬ pid = d.product_id := fun h => h2 h.symm
        simp [addPendingDelta, h1, h2, h3, h2s, ih]
      · by_cases h2 : d.product_id = pid <;>
          simp [addPendingDelta, h1, h2, h3, ih]

lemma matchesFor_fold (pid : String) (events : List DeltaEvent) :
    ∀ (pending : List PendingDelta) (S : Int),
      ((matchesFor pending pid = [] ∧ S = 0) ∨
        (∃ e, matchesFor pending pid = [e] ∧ deltaOK e.delta_quantity S)) →
      ((matchesFor (events.foldl stepPD pending) pid = [] ∧ S + windowSum events pid = 0) ∨
        (∃ e, matchesFor (events.foldl stepPD pending) pid = [e] ∧
          deltaOK e.delta_quantity (S + windowSum events pid))) := by
  induction events with
  | nil =>
    intro pending S h
    simpa [windowSum] using h
  | cons ev rest ih =>
    intro pending S h
    rw [List.foldl_cons, windowSum_cons, ← add_assoc]
    apply ih
    have hadd := matchesFor_add ev.source_device ev.delta ev.now pid pending
    have hstep : matchesFor (stepPD pending ev) pid
        = matchesFor (addPendingDelta ev.source_device ev.delta ev.now pending) pid := rfl
    by_cases hev : ev.delta.product_id = pid
    · rw [if_pos hev] at hadd
      rw [if_pos hev]
      rcases h with ⟨h1, h2⟩ | ⟨e, he, hOK⟩
      · right
        refine ⟨newPendingEntry ev.source_device ev.delta ev.now, ?_, ?_⟩
        · rw [hstep, hadd, h1]
        · subst h2
          simpa [newPendingEntry] using deltaOK_self ev.delta.delta_quantity
      · right
        refine ⟨coalesceEntry e ev.delta ev.now, ?_, ?_⟩
        · rw [hstep, hadd, he]
        · simpa [coalesceEntry] using
            deltaOK_i32add e.delta_quantity S ev.delta.delta_quantity hOK
    · rw [if_neg hev] at hadd
      rw [if_neg hev, add_zero]
      rcases h with ⟨h1, h2⟩ | ⟨e, he, hOK⟩
      · exact Or.inl ⟨by rw [hstep, hadd]; exact h1, h2⟩
      · exact Or.inr ⟨e, by rw [hstep, hadd]; exact he, hOK⟩

lemma updatesFor_flush (pending : List PendingDelta) (now : Nat) (pid : String) :
    updatesFor (flushPending pending now) pid =
      ((matchesFor pending pid).filter fun e => e.delta_quantity != 0).map
        (pendingToUpdate now) := by
  unfold updatesFor flushPending matchesFor
  induction pending with
  | nil => rfl
  | cons e rest ih =>
    by_cases h1 : e.delta_quantity = 0 <;> by_cases h2 : e.product_id = pid <;>
      simp [pendingToUpdate, h1, h2, ih]

/-- C4: Coalesced aggregation (aggregator.rs `add_pending_delta` +
`flush_pending`): for the deltas received in one coalesce window, the flush
emits exactly one `InventoryUpdate` per product whose deltas sum to a
nonzero value, carrying exactly that sum, and emits nothing for a product
whose deltas sum to zero.  (The sum is required to fit in `i32`, the wire
type of `delta_quantity`.) -/
theorem coalesced_window (events : List DeltaEvent) (pid : String) (now : Nat)
    (hlo : -(2 ^ 31) ≤ windowSum events pid) (hhi : windowSum events pid < 2 ^ 31) :
    (windowSum events pid = 0 →
      updatesFor (flushPending (runWindow events) now) pid = []) ∧
    (windowSum events pid ≠ 0 →
      ∃ u, updatesFor (flushPending (runWindow events) now) pid = [u] ∧
        u.delta_quantity = windowSum events pid) := by
  have hrw : runWindow events = events.foldl stepPD [] := rfl
  have hfold := matchesFor_fold pid events [] 0 (Or.inl ⟨rfl, rfl⟩)
  rw [updatesFor_flush, hrw]
  rcases hfold with ⟨h1, h2⟩ | ⟨e, he, hOK⟩
  · rw [zero_add] at h2
    constructor
    · intro _
      rw [h1]
      rfl
    · intro hne
      exact absurd h2 hne
  · rw [zero_add] at hOK
    have heq : e.delta_quantity = windowSum events pid := deltaOK_eq _ _ hOK hlo hhi
    constructor
    · intro h0
      rw [he]
      simp [heq, h0]
    · intro hne
      refine ⟨pendingToUpdate now e, ?_, by simp [pendingToUpdate, heq]⟩
      rw [he]
      simp [heq, hne]

/-- Witness for `coalesced_window`: two sales of product P in one window
(deltas -2 and -1) coalesce into a single InventoryUpdate of -3. -/
theorem coalesced_window_witness :
    windowSum demoWindow "P" = -3 ∧
    ∃ u, updatesFor (flushPending (runWindow demoWindow) 3) "P" = [u] ∧
      u.delta_quantity = windowSum demoWindow "P" :=
  ⟨by decide, (coalesced_window demoWindow "P" 3 (by decide) (by decide)).2 (by decide)⟩


lemma syncRow_id (now : Nat) (r : OutboxRow) : (syncRow now r).id = r.id := rfl

lemma syncRow_idem (now : Nat) (r : OutboxRow) :
    syncRow now (syncRow now r) = syncRow now r := rfl

lemma failRow_id (now : Nat) (e : String) (r : OutboxRow) :
    (failRow now e r).id = r.id := rfl

lemma foldl_map_comm {α β : Type} (g : β → α → α) (l : List β) (t : List α) :
    l.foldl (fun acc b => acc.map (g b)) t = t.map fun a => l.foldl (fun a b => g b a) a := by
  induction l generalizing t with
  | nil => simp
  | cons b rest ih =>
    rw [List.foldl_cons, ih, List.map_map]
    rfl

lemma handleBatchAck_map (now : Nat) (table : List OutboxRow) (ack : BatchAck) :
    handleBatchAck now table ack = table.map (rowAfterAck now ack) := by
  unfold handleBatchAck rowAfterAck markSynced markFailed
  rw [foldl_map_comm, foldl_map_comm, List.map_map]
  rfl

lemma ackFold_eq (now : Nat) (ids : List String) (r : OutboxRow) :
    ids.foldl (fun row id => ackRowStep now id row) r =
      if r.id ∈ ids then syncRow now r else r := by
  induction ids generalizing r with
  | nil => simp
  | cons id rest ih =>
    rw [List.foldl_cons]
    by_cases h : r.id = id
    · have hstep : ackRowStep now id r = syncRow now r := by simp [ackRowStep, h]
      rw [hstep, ih, syncRow_id]
      by_cases hm : r.id ∈ rest <;> simp [hm, h, syncRow_idem]
    · have hstep : ackRowStep now id r = r := by simp [ackRowStep, h]
      rw [hstep, ih]
      by_cases hm : r.id ∈ rest <;> simp [List.mem_cons, h, hm]

lemma failFold_no_match (now : Nat) (fs : List FailedEntry) (r : OutboxRow)
    (h : ∀ f ∈ fs, r.id ≠ f.id) :
    fs.foldl (fun row g => failRowStepErr now g.id (mkSyncErrorMsg g) row) r = r := by
  induction fs generalizing r with
  | nil => rfl
  | cons g rest ih =>
    rw [List.foldl_cons]
    have hstep : failRowStepErr now g.id (mkSyncErrorMsg g) r = r := by
      simp [failRowStepErr, h g (List.mem_cons_self g rest)]
    rw [hstep]
    exact ih r fun f hf => h f (List.mem_cons_of_mem g hf)

lemma failFold_single (now : Nat) (fs : List FailedEntry) :
    ∀ (r : OutboxRow) (f : FailedEntry), f ∈ fs → r.id = f.id →
      (fs.map FailedEntry.id).Nodup →
      fs.foldl (fun row g => failRowStepErr now g.id (mkSyncErrorMsg g) row) r
        = failRow now (mkSyncErrorMsg f) r := by
  induction fs with
  | nil => intro r f hmem; cases hmem
  | cons g rest ih =>
    intro r f hmem hid hnodup
    rw [List.map_cons, List.nodup_cons] at hnodup
    obtain ⟨hgnot, hrestnodup⟩ := hnodup
    rw [List.foldl_cons]
    rcases List.mem_cons.mp hmem with rfl | hmem2
    · have hstep : failRowStepErr now f.id (mkSyncErrorMsg f) r
          = failRow now (mkSyncErrorMsg f) r := by
        simp [failRowStepErr, hid]
      rw [hstep]
      apply failFold_no_match
      intro f2 hf2 heq
      apply hgnot
      rw [failRow_id, hid] at heq
      rw [heq]
      exact List.mem_map_of_mem FailedEntry.id hf2
    · have hne : r.id ≠ g.id := by
        rw [hid]
        intro hgf
        have hmm : f.id ∈ rest.map FailedEntry.id := List.mem_map_of_mem FailedEntry.id hmem2
        rw [hgf] at hmm
        exact hgnot hmm
      have hstep : failRowStepErr now g.id (mkSyncErrorMsg g) r = r := by
        simp [failRowStepErr, hne]
      rw [hstep]
      exact ih r f hmem2 hid hrestnodup

/-- C5: Batch-ack application (outbox.rs `handle_batch_ack` with
repository/sync.rs `mark_synced` / `mark_failed`): every acked row gets
`synced_at` set; every failed row — retryable or not — gets `attempts`
incremented by one and `last_error` stored while `synced_at` stays null and
the row stays in the table and in the pending queue; no row is ever
dropped (the table length is preserved). -/
theorem batch_ack_rows (now : Nat) (table : List OutboxRow) (ack : BatchAck) (r : OutboxRow)
    (hr : r ∈ table) (hnodup : (ack.failed_ids.map FailedEntry.id).Nodup) :
    (handleBatchAck now table ack).length = table.length ∧
    rowAfterAck now ack r ∈ handleBatchAck now table ack ∧
    (r.id ∈ ack.acked_ids → (∀ f ∈ ack.failed_ids, r.id ≠ f.id) →
      rowAfterAck now ack r = syncRow now r ∧
      (rowAfterAck now ack r).synced_at = some now) ∧
    (∀ f ∈ ack.failed_ids, r.id = f.id → r.id ∉ ack.acked_ids → r.synced_at = none →
      (rowAfterAck now ack r).attempts = r.attempts + 1 ∧
      (rowAfterAck now ack r).last_error = some (mkSyncErrorMsg f) ∧
      (rowAfterAck now ack r).synced_at = none ∧
      rowAfterAck now ack r ∈ pendingRows (handleBatchAck now table ack)) := by
  have hmap := handleBatchAck_map now table ack
  refine ⟨by rw [hmap]; simp, by rw [hmap]; exact List.mem_map_of_mem _ hr, ?_, ?_⟩
  · intro hack hnof
    have h1 : ack.acked_ids.foldl (fun row id => ackRowStep now id row) r = syncRow now r := by
      rw [ackFold_eq]
      simp [hack]
    have h2 : rowAfterAck now ack r = syncRow now r := by
      unfold rowAfterAck
      rw [h1]
      apply failFold_no_match
      intro f hf
      rw [syncRow_id]
      exact hnof f hf
    exact ⟨h2, by rw [h2]; rfl⟩
  · intro f hf hid hnack hpend
    have h1 : ack.acked_ids.foldl (fun row id => ackRowStep now id row) r = r := by
      rw [ackFold_eq]
      simp [hnack]
    have h2 : rowAfterAck now ack r = failRow now (mkSyncErrorMsg f) r := by
      unfold rowAfterAck
      rw [h1]
      exact failFold_single now ack.failed_ids r f hf hid hnodup
    have hsync : (rowAfterAck now ack r).synced_at = none := by
      rw [h2]
      show r.synced_at = none
      exact hpend
    refine ⟨by rw [h2]; rfl, by rw [h2]; rfl, hsync, ?_⟩
    rw [hmap]
    unfold pendingRows
    apply List.mem_filter.mpr
    refine ⟨List.mem_map_of_mem _ hr, ?_⟩
    rw [hsync]
    rfl

/-- Witness for `batch_ack_rows`: spec scenario 6 — rows A, B, C; A and C
acked, B failed with a non-retryable FK_VIOLATION. -/
theorem batch_ack_rows_witness :
    (rowAfterAck 9 demoAck rowB).attempts = rowB.attempts + 1 ∧
    (rowAfterAck 9 demoAck rowB).last_error = some (mkSyncErrorMsg demoFailedB) ∧
    (rowAfterAck 9 demoAck rowB).synced_at = none ∧
    rowAfterAck 9 demoAck rowB ∈ pendingRows (handleBatchAck 9 [rowA, rowB, rowC] demoAck) :=
  (batch_ack_rows 9 [rowA, rowB, rowC] demoAck rowB (by decide) (by decide)).2.2.2
    demoFailedB (by decide) (by decide) (by decide) (by decide)

/-- C6 (counterexample): a row queued by `queue_for_sync` and then acked on
its first transmission has `synced_at` set while `attempts` is still 0 —
`mark_synced` never touches the attempts counter, so
`synced_at ≠ null ⇒ attempts ≥ 1` fails. -/
theorem synced_with_zero_attempts :
    ∃ r ∈ applyOp (applyOp [] (.queueOp "A" "default" "SALE" "sale-1" "p" 1))
        (.markSyncedOp 2 "A"),
      r.synced_at = some 2 ∧ r.attempts = 0 ∧ ¬ (1 ≤ r.attempts) := by
  decide

/-- C6 (amended): rows are created by `queue_for_sync` with `attempts = 0`,
and under every repository operation a surviving row's `attempts` never
decreases (`mark_failed` adds one, `mark_synced` and cleanup leave it
unchanged); but `mark_synced` does not touch `attempts`, so
`synced_at ≠ null` does NOT imply `attempts ≥ 1`. -/
theorem outbox_attempts_monotone (op : OutboxOp) (r r' : OutboxRow)
    (h : stepRow op r = some r') :
    r.attempts ≤ r'.attempts ∧ ∀ nr ∈ newRows op, nr.attempts = 0 := by
  constructor
  · cases op with
    | queueOp id tn et eid pl now =>
      cases h
      exact le_refl _
    | markSyncedOp now id =>
      rw [stepRow] at h
      cases h
      unfold ackRowStep syncRow
      split <;> simp
    | markFailedOp now id error =>
      rw [stepRow] at h
      cases h
      unfold failRowStepErr failRow
      split <;> simp
    | cleanupOp cutoff =>
      rw [stepRow] at h
      cases hs : r.synced_at with
      | some t =>
        rw [hs] at h
        by_cases hlt : t < cutoff
        · simp [hlt] at h
        · simp [hlt] at h
          cases h
          exact le_refl _
      | none =>
        rw [hs] at h
        simp at h
        cases h
        exact le_refl _
  · cases op <;> simp [newRows, mkQueuedRow]

/-- Witness for `outbox_attempts_monotone`: `mark_failed` on a fresh queued
row. -/
theorem outbox_attempts_monotone_witness :
    (mkQueuedRow "A" "t" "SALE" "s" "p" 1).attempts
        ≤ (failRow 3 "boom" (mkQueuedRow "A" "t" "SALE" "s" "p" 1)).attempts ∧
    ∀ nr ∈ newRows (OutboxOp.markFailedOp 3 "A" "boom"), nr.attempts = 0 :=
  outbox_attempts_monotone (.markFailedOp 3 "A" "boom")
    (mkQueuedRow "A" "t" "SALE" "s" "p" 1)
    (failRow 3 "boom" (mkQueuedRow "A" "t" "SALE" "s" "p" 1)) (by decide)


lemma natCmp_gt_iff (a b : Nat) : natCmp a b = .gt ↔ b < a := by
  unfold natCmp
  by_cases h1 : a < b
  · simp [h1]
    omega
  · by_cases h2 : a = b
    · simp [h1, h2]
    · simp [h1, h2]
      omega

lemma natCmp_eq_iff (a b : Nat) : natCmp a b = .eq ↔ a = b := by
  unfold natCmp
  by_cases h1 : a < b
  · simp [h1]
    omega
  · by_cases h2 : a = b <;> simp [h1, h2]

lemma string_eq_of_data_eq (a b : String) (h : a.data = b.data) : a = b := by
  cases a
  cases b
  exact congrArg String.mk h

lemma strCmp_gt_iff (a b : String) : strCmp a b = .gt ↔ b.data < a.data := by
  unfold strCmp
  by_cases h1 : a.data < b.data
  · rw [if_pos h1]
    constructor
    · intro h
      exact Ordering.noConfusion h
    · intro h
      exact absurd h (lt_asymm h1)
  · rw [if_neg h1]
    by_cases h2 : a = b
    · rw [if_pos h2]
      subst h2
      constructor
      · intro h
        exact Ordering.noConfusion h
      · intro h
        exact absurd h (lt_irrefl _)
    · rw [if_neg h2]
      constructor
      · intro _
        refine lt_of_le_of_ne (le_of_not_lt h1) ?_
        intro hd
        exact h2 (string_eq_of_data_eq a b hd.symm)
      · intro _
        rfl

lemma hubCmp_gt_iff (a b : DiscoveredHub) :
    hubCmp a b = .gt ↔
      (b.priority < a.priority ∨
        (a.priority = b.priority ∧ a.device_id.data < b.device_id.data)) := by
  unfold hubCmp
  cases hc : natCmp a.priority b.priority with
  | eq =>
    have hpe : a.priority = b.priority := (natCmp_eq_iff _ _).mp hc
    rw [strCmp_gt_iff]
    constructor
    · intro h
      exact Or.inr ⟨hpe, h⟩
    · rintro (h | ⟨-, h⟩)
      · exact absurd hpe (by omega)
      · exact h
  | lt =>
    have hne : ¬ a.priority = b.priority := fun h => by
      rw [(natCmp_eq_iff a.priority b.priority).mpr h] at hc
      cases hc
    have hngt : ¬ b.priority < a.priority := fun h => by
      rw [(natCmp_gt_iff a.priority b.priority).mpr h] at hc
      cases hc
    simp [hne, hngt]
  | gt =>
    have hgt : b.priority < a.priority := (natCmp_gt_iff _ _).mp hc
    simp [hgt]

lemma hubGe_refl (a : DiscoveredHub) : hubGe a a :=
  Or.inr ⟨rfl, le_refl _⟩

lemma hubGe_trans (a b c : DiscoveredHub) (h1 : hubGe a b) (h2 : hubGe b c) :
    hubGe a c := by
  rcases h1 with h1 | ⟨h1e, h1le⟩ <;> rcases h2 with h2 | ⟨h2e, h2le⟩
  · exact Or.inl (by omega)
  · exact Or.inl (by omega)
  · exact Or.inl (by omega)
  · exact Or.inr ⟨by omega, le_trans h1le h2le⟩

lemma hubGe_of_gt (a b : DiscoveredHub) (h : hubCmp a b = .gt) : hubGe a b := by
  rcases (hubCmp_gt_iff a b).mp h with h | ⟨he, hlt⟩
  · exact Or.inl h
  · exact Or.inr ⟨he.symm, le_of_lt hlt⟩

lemma hubGe_of_not_gt (a b : DiscoveredHub) (h : ¬ hubCmp a b = .gt) : hubGe b a := by
  rw [hubCmp_gt_iff] at h
  push_neg at h
  obtain ⟨h1, h2⟩ := h
  by_cases he : a.priority = b.priority
  · exact Or.inr ⟨he, h2 he⟩
  · exact Or.inl (by omega)

lemma rustMaxBy_fold (xs : List DiscoveredHub) :
    ∀ (x : DiscoveredHub),
      (xs.foldl (fun acc y => if hubCmp acc y = .gt then acc else y) x) ∈ x :: xs ∧
      ∀ z ∈ x :: xs,
        hubGe (xs.foldl (fun acc y => if hubCmp acc y = .gt then acc else y) x) z := by
  induction xs with
  | nil =>
    intro x
    constructor
    · exact List.mem_cons_self x []
    · intro z hz
      rw [List.mem_singleton] at hz
      rw [hz]
      exact hubGe_refl x
  | cons y rest ih =>
    intro x
    rw [List.foldl_cons]
    by_cases hgt : hubCmp x y = .gt
    · rw [if_pos hgt]
      obtain ⟨hmem, hall⟩ := ih x
      have hfoldx := hall x (List.mem_cons_self x rest)
      constructor
      · rcases List.mem_cons.mp hmem with he | hm
        · rw [he]
          exact List.mem_cons_self x (y :: rest)
        · exact List.mem_cons_of_mem x (List.mem_cons_of_mem y hm)
      · intro z hz
        rcases List.mem_cons.mp hz with he | hz2
        · rw [he]
          exact hfoldx
        · rcases List.mem_cons.mp hz2 with he2 | hz3
          · rw [he2]
            exact hubGe_trans _ x y hfoldx (hubGe_of_gt x y hgt)
          · exact hall z (List.mem_cons_of_mem x hz3)
    · rw [if_neg hgt]
      obtain ⟨hmem, hall⟩ := ih y
      have hfoldy := hall y (List.mem_cons_self y rest)
      constructor
      · rcases List.mem_cons.mp hmem with he | hm
        · rw [he]
          exact List.mem_cons_of_mem x (List.mem_cons_self y rest)
        · exact List.mem_cons_of_mem x (List.mem_cons_of_mem y hm)
      · intro z hz
        rcases List.mem_cons.mp hz with he | hz2
        · rw [he]
          exact hubGe_trans _ y x hfoldy (hubGe_of_not_gt x y hgt)
        · exact hall z hz2

lemma shouldChallenge_iff (p : Nat) (i : String) (hub : DiscoveredHub) :
    shouldChallenge p i hub = true ↔
      (hub.priority < p ∨ (p = hub.priority ∧ i.data < hub.device_id.data)) := by
  unfold shouldChallenge
  by_cases h1 : p > hub.priority
  · rw [if_pos h1]
    exact iff_of_true rfl (Or.inl h1)
  · rw [if_neg h1]
    by_cases h2 : p = hub.priority ∧ i.data < hub.device_id.data
    · rw [if_pos h2]
      exact iff_of_true rfl (Or.inr h2)
    · rw [if_neg h2]
      refine iff_of_false (by simp) ?_
      rintro (h | h)
      · exact h1 h
      · exact h2 h

/-- C7 (counterexample): among two announcers of equal priority with device
IDs `a` and `b`, `best_hub` picks the lexicographically SMALLER ID `a`
(whatever the discovery order), not the larger `b` the claim states; and
`should_challenge` challenges exactly the hubs with a LARGER ID. -/
theorem best_hub_smaller_id_wins :
    demoHubA.priority = demoHubB.priority ∧
    demoHubA.device_id.data < demoHubB.device_id.data ∧
    bestHub [demoHubA, demoHubB] = some demoHubA ∧
    bestHub [demoHubB, demoHubA] = some demoHubA ∧
    shouldChallenge 5 "a" demoHubB = true ∧
    shouldChallenge 5 "b" demoHubA = false := by
  decide

/-- C7 (amended): `best_hub` returns a discovered hub of maximal priority,
and among hubs of equal priority the one with the lexicographically
SMALLER device ID; `should_challenge` uses the same direction, challenging
exactly when this device has strictly higher priority, or equal priority
and a strictly smaller device ID. -/
theorem best_hub_spec (hubs : List DiscoveredHub) (b : DiscoveredHub)
    (hb : bestHub hubs = some b) :
    b ∈ hubs ∧
    (∀ x ∈ hubs, x.priority ≤ b.priority) ∧
    (∀ x ∈ hubs, x.priority = b.priority → b.device_id.data ≤ x.device_id.data) ∧
    (∀ (p : Nat) (i : String) (hub : DiscoveredHub),
      shouldChallenge p i hub = true ↔
        (hub.priority < p ∨ (p = hub.priority ∧ i.data < hub.device_id.data))) := by
  cases hubs with
  | nil => cases hb
  | cons x xs =>
    unfold bestHub rustMaxBy at hb
    obtain rfl : xs.foldl (fun acc y => if hubCmp acc y = .gt then acc else y) x = b :=
      Option.some.inj hb
    obtain ⟨hmem, hall⟩ := rustMaxBy_fold xs x
    refine ⟨hmem, ?_, ?_, shouldChallenge_iff⟩
    · intro z hz
      rcases hall z hz with h | ⟨he, -⟩
      · exact le_of_lt h
      · exact le_of_eq he
    · intro z hz he
      rcases hall z hz with h | ⟨-, hle⟩
      · exact absurd he (by omega)
      · exact hle

/-- Witness for `best_hub_spec` on the two demo hubs. -/
theorem best_hub_spec_witness :
    demoHubA ∈ [demoHubA, demoHubB] ∧
    (∀ x ∈ [demoHubA, demoHubB], x.priority ≤ demoHubA.priority) ∧
    (∀ x ∈ [demoHubA, demoHubB], x.priority = demoHubA.priority →
      demoHubA.device_id.data ≤ x.device_id.data) :=
  ⟨(best_hub_spec [demoHubA, demoHubB] demoHubA (by decide)).1,
   (best_hub_spec [demoHubA, demoHubB] demoHubA (by decide)).2.1,
   (best_hub_spec [demoHubA, demoHubB] demoHubA (by decide)).2.2.1⟩

/-- C8 (counterexample): a device started in forced `primary` mode becomes
PRIMARY but its term stays at the previous value — on a fresh device
(`ElectionState::default`, term 0) it is PRIMARY at term 0, not at
`previous + 1 = 1`: `become_primary` never increments the term. -/
theorem forced_primary_term_not_bumped :
    (electionInit .primary "dev-1" 0 electionStateDefault).role = .primary ∧
    (electionInit .primary "dev-1" 0 electionStateDefault).term = 0 ∧
    (electionInit .primary "dev-1" 0 electionStateDefault).term
      ≠ electionStateDefault.term + 1 := by
  decide

/-- C8 (amended): forced `primary` mode skips the election and becomes
PRIMARY immediately at the PREVIOUS term, unchanged (term 0 on a fresh
device); only the candidate step of `run_election` bumps the term by one. -/
theorem forced_primary_term (s : ElectionState) (deviceId : String) (now : Nat) :
    (electionInit .primary deviceId now s).role = .primary ∧
    (electionInit .primary deviceId now s).term = s.term ∧
    (electionCandidateStep s).term = s.term + 1 :=
  ⟨rfl, rfl, rfl⟩

/-- C9 (counterexample): a Hello carrying protocol_version 999 (incompatible
with PROTOCOL_VERSION = 2) whose store matches is answered with Welcome —
the Hub never checks the version, and no UnsupportedVersion error exists on
the handshake path. -/
theorem incompatible_version_still_welcomed :
    badVersionHello.protocol_version ≠ PROTOCOL_VERSION ∧
    (handleHandshake "S1" "hub-1" 7 100 [] (some badVersionHello) "10.0.0.9" 100).2
      = .welcomeReply { hub_device_id := "hub-1", store_id := "S1"
                        election_term := 7, server_time := 100 } := by
  decide

/-- C9 (amended): the Hub does not validate `Hello.protocol_version` at
all — the handshake outcome is identical for any two protocol versions,
and the only Error the handshake ever produces is STORE_MISMATCH. -/
theorem handshake_ignores_protocol_version (hubStoreId hubDeviceId : String)
    (term serverTime : Nat) (clients : List ConnectedClient) (h : HelloPayload)
    (addr : String) (now : Nat) (v v' : Nat) :
    handleHandshake hubStoreId hubDeviceId term serverTime clients
        (some { h with protocol_version := v }) addr now
      = handleHandshake hubStoreId hubDeviceId term serverTime clients
        (some { h with protocol_version := v' }) addr now ∧
    (∀ code msg,
      (handleHandshake hubStoreId hubDeviceId term serverTime clients
        (some h) addr now).2 = .errorReply code msg → code = "STORE_MISMATCH") := by
  constructor
  · rfl
  · intro code msg heq
    by_cases hs : h.store_id = hubStoreId
    · simp [handleHandshake, hs] at heq
    · simp [handleHandshake, hs] at heq
      exact heq.1.symm

end TitanPos
